import Mathlib

/-!
Verification development for `mpvinfod.py`, an mpv status reporter.

The Python source is shallowly embedded: JSON values become the inductive
`JVal` (numbers as exact rationals: the inputs appearing in the claims are
small decimal literals that doubles represent exactly), Python exceptions
become the `PyErr` error type of `Except`, and the I/O loops are modelled
over explicit scripts of received chunks / connect outcomes.  Function and
constant names follow the source.
-/

set_option autoImplicit false

namespace Mpvinfod

/-- Python exceptions that the embedded code can raise. -/
inductive PyErr where
  | typeError (msg : String)
  | valueError (msg : String)
  | keyError (key : String)
  | indexError (msg : String)
  | nameError (missing : String)
  | jsonDecodeError (msg : String)
  | attributeError (msg : String)
  | fileNotFoundError
deriving Repr, DecidableEq

/-- An exact number: the fraction `n / d` with `d` positive (the parser
only ever builds powers of ten for `d`).  The fraction is NOT reduced;
equality of the represented values is `jnumEq`.  Python stores JSON numbers
as int/float; every number in this development is an exact decimal that a
double represents exactly, so exact fractions model them faithfully. -/
structure JNum where
  n : Int
  d : Nat
deriving Repr, DecidableEq

/-- Numeric equality of the represented values (cross-multiplication),
mirroring Python's cross-type `1 == 1.0`. -/
def jnumEq (a b : JNum) : Bool := a.n * (b.d : Int) == b.n * (a.d : Int)

/-- The number representing the integer `i`. -/
def jnumInt (i : Int) : JNum := ⟨i, 1⟩

/-- A decoded JSON value (the result of `json.loads`). -/
inductive JVal where
  | null
  | boolean (b : Bool)
  | num (q : JNum)
  | str (s : String)
  | arr (elems : List JVal)
  | obj (fields : List (String × JVal))

/-- Whether a `JVal` is a JSON object (a Python `dict`). -/
def JVal.isObj : JVal → Bool
  | .obj _ => true
  | _ => false

/-- Python truthiness of a decoded JSON value (`bool(v)`). -/
def pyTruthy : JVal → Bool
  | .null => false
  | .boolean b => b
  | .num q => q.n ≠ 0
  | .str s => s ≠ ""
  | .arr elems => ¬ elems.isEmpty
  | .obj fields => ¬ fields.isEmpty

mutual

/-- Python `==` on decoded JSON values.  `True == 1` holds in Python because
`bool` is an `int` subclass; dict equality in Python is key-set based while
this model compares field lists positionally (JSON objects compared by the
program are never reordered duplicates, so the difference is unreachable
here). -/
def pyEqV : JVal → JVal → Bool
  | .null, .null => true
  | .boolean a, .boolean b => a == b
  | .boolean a, .num q => jnumEq (jnumInt (if a then 1 else 0)) q
  | .num q, .boolean b => jnumEq q (jnumInt (if b then 1 else 0))
  | .num a, .num b => jnumEq a b
  | .str a, .str b => a == b
  | .arr a, .arr b => pyEqVList a b
  | .obj a, .obj b => pyEqVFields a b
  | _, _ => false

/-- Elementwise Python equality of JSON arrays. -/
def pyEqVList : List JVal → List JVal → Bool
  | [], [] => true
  | a :: as_, b :: bs => pyEqV a b && pyEqVList as_ bs
  | _, _ => false

/-- Positional Python equality of JSON object field lists. -/
def pyEqVFields : List (String × JVal) → List (String × JVal) → Bool
  | [], [] => true
  | (ka, va) :: as_, (kb, vb) :: bs => ka == kb && pyEqV va vb && pyEqVFields as_ bs
  | _, _ => false

end

/-- Python `d.get(k)` on a string-keyed dict modelled as an association
list.  A later duplicate key overwrites an earlier one (as in a Python dict
built by successive insertion, e.g. by `json.loads` or a comprehension), so
the lookup takes the last binding. -/
def dictGet {α : Type} (d : List (String × α)) (k : String) : Option α :=
  match d with
  | [] => none
  | (k0, v0) :: rest =>
    match dictGet rest k with
    | some v => some v
    | none => if k0 == k then some v0 else none

/-- Python `x == e` where `x` came from `d.get(k)` (so `x` may be `None`,
which equals none of the strings/numbers the program compares against). -/
def pyEqOpt (x : Option JVal) (e : JVal) : Bool :=
  match x with
  | none => false
  | some v => pyEqV v e

/-! JSON decoding, modelling `json.loads` (strict mode).  The parser is a
recursive-descent parser on the character list, driven by a fuel counter;
`json_loads` supplies enough fuel for any input of the given length. -/

/-- Literal opening brace character (written via its code point). -/
def lbrace : Char := Char.ofNat 123

/-- Literal closing brace character (written via its code point). -/
def rbrace : Char := Char.ofNat 125

/-- JSON insignificant whitespace. -/
def isJsonWs (c : Char) : Bool :=
  c == ' ' || c == '\t' || c == '\n' || c == '\r'

/-- Skip insignificant JSON whitespace. -/
def skipWs (cs : List Char) : List Char := cs.dropWhile isJsonWs

/-- Value of a hexadecimal digit, if any. -/
def hexVal (c : Char) : Option Nat :=
  if c.isDigit then some (c.toNat - 48)
  else if ('a' ≤ c) ∧ (c ≤ 'f') then some (c.toNat - 87)
  else if ('A' ≤ c) ∧ (c ≤ 'F') then some (c.toNat - 55)
  else none

/-- Parse the body of a JSON string (the opening quote already consumed),
returning the decoded characters and the rest of the input.  Unescaped
control characters are rejected, as in strict `json.loads`.  Surrogate-pair
recombination is not modelled (`Char.ofNat` is applied to each `\u` escape
directly); no input in this development contains surrogates. -/
def parseStringBody : List Char → Except PyErr (List Char × List Char)
  | [] => .error (.jsonDecodeError "Unterminated string")
  | '\\' :: rest =>
    match rest with
    | [] => .error (.jsonDecodeError "Unterminated string")
    | 'u' :: h1 :: h2 :: h3 :: h4 :: rest2 =>
      match hexVal h1, hexVal h2, hexVal h3, hexVal h4 with
      | some a, some b, some c, some d => do
        let (s, r) ← parseStringBody rest2
        .ok (Char.ofNat (((a * 16 + b) * 16 + c) * 16 + d) :: s, r)
      | _, _, _, _ => .error (.jsonDecodeError "Invalid \\uXXXX escape")
    | e :: rest2 =>
      let decoded : Option Char :=
        if e == '"' then some '"'
        else if e == '\\' then some '\\'
        else if e == '/' then some '/'
        else if e == 'b' then some (Char.ofNat 8)
        else if e == 'f' then some (Char.ofNat 12)
        else if e == 'n' then some '\n'
        else if e == 'r' then some '\r'
        else if e == 't' then some '\t'
        else none
      match decoded with
      | some c => do
        let (s, r) ← parseStringBody rest2
        .ok (c :: s, r)
      | none => .error (.jsonDecodeError "Invalid \\escape")
  | c :: rest =>
    if c == '"' then .ok ([], rest)
    else if c.toNat < 32 then .error (.jsonDecodeError "Invalid control character")
    else do
      let (s, r) ← parseStringBody rest
      .ok (c :: s, r)

/-- Numeric value of a list of decimal digit characters. -/
def digitsToNat (ds : List Char) : Nat :=
  ds.foldl (fun a c => a * 10 + (c.toNat - 48)) 0

/-- Parse a JSON number: `-? (0 | [1-9][0-9]*) (. [0-9]+)? ([eE][+-]?[0-9]+)?`.
A leading `0` is not followed by further integer digits (those are left in
the remainder, where the caller will reject them, matching the strict
`json.loads` grammar). -/
def parseNumber (cs : List Char) : Except PyErr (JNum × List Char) :=
  let (neg, cs1) :=
    match cs with
    | '-' :: r => (true, r)
    | _ => (false, cs)
  match cs1 with
  | [] => .error (.jsonDecodeError "Expecting value")
  | c :: _ =>
    if ¬ c.isDigit then .error (.jsonDecodeError "Expecting value")
    else
      let (intDigits, afterInt) :=
        if c == '0' then ([c], cs1.tail)
        else (cs1.takeWhile Char.isDigit, cs1.dropWhile Char.isDigit)
      let (fracDigits, afterFrac) :=
        match afterInt with
        | '.' :: d :: r =>
          if d.isDigit then
            ((d :: r).takeWhile Char.isDigit, (d :: r).dropWhile Char.isDigit)
          else ([], afterInt)
        | _ => ([], afterInt)
      let (expVal, afterExp) :=
        match afterFrac with
        | e :: r =>
          if e == 'e' || e == 'E' then
            let (esign, r2) :=
              match r with
              | '+' :: r3 => (false, r3)
              | '-' :: r3 => (true, r3)
              | _ => (false, r)
            match r2 with
            | d :: _ =>
              if d.isDigit then
                (some (esign, digitsToNat (r2.takeWhile Char.isDigit)),
                 r2.dropWhile Char.isDigit)
              else (none, afterFrac)
            | [] => (none, afterFrac)
          else (none, afterFrac)
        | [] => (none, afterFrac)
      let k := fracDigits.length
      let mag : JNum := ⟨(digitsToNat (intDigits ++ fracDigits) : Int), 10 ^ k⟩
      let mag : JNum :=
        match expVal with
        | none => mag
        | some (true, e) => ⟨mag.n, mag.d * 10 ^ e⟩
        | some (false, e) => ⟨mag.n * (10 ^ e : Nat), mag.d⟩
      .ok (if neg then ⟨-mag.n, mag.d⟩ else mag, afterExp)

mutual

/-- Parse one JSON value (fuel-driven recursive descent). -/
def parseValue : Nat → List Char → Except PyErr (JVal × List Char)
  | 0, _ => .error (.jsonDecodeError "Nesting too deep")
  | fuel + 1, cs =>
    match skipWs cs with
    | [] => .error (.jsonDecodeError "Expecting value")
    | c :: rest =>
      if c == '"' then do
        let (s, r) ← parseStringBody rest
        .ok (.str (String.mk s), r)
      else if c == lbrace then
        match skipWs rest with
        | c2 :: rest2 =>
          if c2 == rbrace then .ok (.obj [], rest2)
          else parseMembers fuel [] (c2 :: rest2)
        | [] => .error (.jsonDecodeError "Expecting property name")
      else if c == '[' then
        match skipWs rest with
        | c2 :: rest2 =>
          if c2 == ']' then .ok (.arr [], rest2)
          else parseElems fuel [] (c2 :: rest2)
        | [] => .error (.jsonDecodeError "Expecting value")
      else if c == 't' then
        match rest with
        | 'r' :: 'u' :: 'e' :: r => .ok (.boolean true, r)
        | _ => .error (.jsonDecodeError "Expecting value")
      else if c == 'f' then
        match rest with
        | 'a' :: 'l' :: 's' :: 'e' :: r => .ok (.boolean false, r)
        | _ => .error (.jsonDecodeError "Expecting value")
      else if c == 'n' then
        match rest with
        | 'u' :: 'l' :: 'l' :: r => .ok (.null, r)
        | _ => .error (.jsonDecodeError "Expecting value")
      else do
        let (q, r) ← parseNumber (c :: rest)
        .ok (.num q, r)
termination_by structural fuel => fuel

/-- Parse the members of a JSON object, positioned at a property name. -/
def parseMembers (fuel : Nat) (acc : List (String × JVal)) (cs : List Char) :
    Except PyErr (JVal × List Char) :=
  match fuel with
  | 0 => .error (.jsonDecodeError "Nesting too deep")
  | fuel + 1 =>
    match cs with
    | '"' :: rest => do
      let (k, r1) ← parseStringBody rest
      match skipWs r1 with
      | ':' :: r2 => do
        let (v, r3) ← parseValue fuel r2
        let acc := acc ++ [(String.mk k, v)]
        match skipWs r3 with
        | ',' :: r4 =>
          match skipWs r4 with
          | c :: r5 => parseMembers fuel acc (c :: r5)
          | [] => .error (.jsonDecodeError "Expecting property name")
        | c :: r4 =>
          if c == rbrace then .ok (.obj acc, r4)
          else .error (.jsonDecodeError "Expecting , delimiter")
        | [] => .error (.jsonDecodeError "Expecting , delimiter")
      | _ => .error (.jsonDecodeError "Expecting : delimiter")
    | _ => .error (.jsonDecodeError "Expecting property name")
termination_by structural fuel

/-- Parse the elements of a JSON array, positioned at a value. -/
def parseElems (fuel : Nat) (acc : List JVal) (cs : List Char) :
    Except PyErr (JVal × List Char) :=
  match fuel with
  | 0 => .error (.jsonDecodeError "Nesting too deep")
  | fuel + 1 => do
    let (v, r1) ← parseValue fuel cs
    let acc := acc ++ [v]
    match skipWs r1 with
    | ',' :: r2 => parseElems fuel acc r2
    | c :: r2 =>
      if c == ']' then .ok (.arr acc, r2)
      else .error (.jsonDecodeError "Expecting , delimiter")
    | [] => .error (.jsonDecodeError "Expecting , delimiter")
termination_by structural fuel

end

/-- Python `json.loads`: parse a complete JSON document; trailing non-space
input is an error. -/
def json_loads (s : String) : Except PyErr JVal := do
  let (v, rest) ← parseValue (2 * s.length + 4) s.data
  if (skipWs rest).isEmpty then .ok v
  else .error (.jsonDecodeError "Extra data")

/-- Python line-boundary characters recognised by `str.splitlines`. -/
def isLineBreak (c : Char) : Bool :=
  c.toNat == 10 || c.toNat == 13 || c.toNat == 11 || c.toNat == 12 ||
  c.toNat == 28 || c.toNat == 29 || c.toNat == 30 || c.toNat == 133 ||
  c.toNat == 8232 || c.toNat == 8233

/-- Worker for `splitlines`, carrying the reversed current segment. -/
def splitlinesGo (acc : List Char) : List Char → List String
  | [] => if acc.isEmpty then [] else [String.mk acc.reverse]
  | '\r' :: '\n' :: rest => String.mk acc.reverse :: splitlinesGo [] rest
  | c :: rest =>
    if isLineBreak c then String.mk acc.reverse :: splitlinesGo [] rest
    else splitlinesGo (c :: acc) rest

/-- Python `str.splitlines()`: split at line boundaries (`\r\n` counts as
one boundary); a trailing boundary does not produce an empty final line. -/
def splitlines (s : String) : List String := splitlinesGo [] s.data

/-- Source: `get_jsons` — "Parse a string as a line-delimited list of JSON
objects."  `json.loads` is mapped over the lines; the first malformed line
raises (there is no per-line error handling in the source). -/
def get_jsons (s : String) : Except PyErr (List JVal) :=
  (splitlines s).mapM json_loads

/-! Module-level constants (source lines 13-16). -/

/-- Source: `RECV_CHUNK` — max size of bytes to read from the socket. -/
def RECV_CHUNK : Nat := 32768

/-- Source: `CLIENT_ID` — client ID used in mpv communication. -/
def CLIENT_ID : Int := 1

/-- Source: `ADDR` — location of the socket. -/
def ADDR : String := "/tmp/mpvsocket"

/-- Source: `EMPTYSTR` — placeholder text to use when not active. -/
def EMPTYSTR : String := ""

/-! The event-selection step (`get_newest_data`). -/

/-- The membership test of the list comprehension in `get_newest_data`:
`list(map(j.get, ['event', 'id', 'name'])) == ['property-change', CLIENT_ID, event]`,
for a `j` that is a dict. -/
def isMatch (event : String) (j : List (String × JVal)) : Bool :=
  pyEqOpt (dictGet j "event") (.str "property-change") &&
  pyEqOpt (dictGet j "id") (.num (jnumInt CLIENT_ID)) &&
  pyEqOpt (dictGet j "name") (.str event)

/-- The list comprehension in `get_newest_data`.  Calling `.get` on a decoded
value that is not a dict raises AttributeError (the comprehension touches
every element, starting from the first). -/
def matchingEvents (json_list : List JVal) (event : String) :
    Except PyErr (List (List (String × JVal))) :=
  match json_list with
  | [] => .ok []
  | .obj fields :: rest => do
    let r ← matchingEvents rest event
    .ok (if isMatch event fields then fields :: r else r)
  | _ :: _ => .error (.attributeError "object has no attribute get")

/-- Python `data or ''` for a `data` that came from `.get('data')`:
a missing key or any falsy value (None, 0, False, empty containers, the
empty string) yields the empty string. -/
def pyOrEmpty (data : Option JVal) : JVal :=
  match data with
  | none => .str ""
  | some v => if pyTruthy v then v else .str ""

/-- Source: `get_newest_data` — "Get the newest value for the provided event
in the json list.  Returns None if no new values exist."  The last matching
record wins (`events[-1]`), and its data is passed through `data or ''`
("Use empty string to differentiate between no events found and newest data
is null"). -/
def get_newest_data (json_list : List JVal) (event : String) :
    Except PyErr (Option JVal) := do
  let events ← matchingEvents json_list event
  match events.getLast? with
  | none => .ok none
  | some j => .ok (some (pyOrEmpty (dictGet j "data")))

/-! Configuration model (source lines 19-57, 227-237). -/

/-- A property spec dict after `fix_config` merged it with
`default_spec_values`: all five optional keys are present.  `replace_map` is
string-to-string, the data contract of the configuration. -/
structure PropSpec where
  property : String
  type : String
  format : String
  max_length : Nat
  shorten_str : String
  replace_map : List (String × String)
deriving Repr, DecidableEq

/-- A property spec dict as written in a configuration: only `property` is
required, the other keys may be absent. -/
structure RawSpec where
  property : String
  type : Option String := none
  format : Option String := none
  max_length : Option Nat := none
  shorten_str : Option String := none
  replace_map : Option (List (String × String)) := none
deriving Repr, DecidableEq

/-- The values of `default_spec_values` (the defaults merged under every
user spec). -/
structure SpecDefaults where
  type : String
  format : String
  max_length : Nat
  shorten_str : String
  replace_map : List (String × String)
deriving Repr, DecidableEq

/-- Source: `default_spec_values`. -/
def default_spec_values : SpecDefaults :=
  { type := "string"
    format := "$p"
    max_length := 50
    shorten_str := "..."
    replace_map := [] }

/-- Source: `default_config`. -/
def default_config : List RawSpec :=
  [ { property := "loop-file"
      format := some "$p "
      replace_map := some [("no", ""), ("inf", "(r)")]
      max_length := some 5 }
  , { property := "volume"
      format := some "($p%) "
      type := some "int"
      max_length := some 5 }
  , { property := "media-title"
      format := some "$p"
      max_length := some 80 }
  , { property := "metadata/by-key/album"
      format := some " | $p"
      max_length := some 50 } ]

/-- Source: `fix_config` — merge `{**default_spec_values, **spec}` for each
spec (a key present in the spec overrides the default).  Despite its
docstring, it performs no duplicate-property check. -/
def fix_config (config : List RawSpec) : List PropSpec :=
  config.map fun spec =>
    { property := spec.property
      type := spec.type.getD default_spec_values.type
      format := spec.format.getD default_spec_values.format
      max_length := spec.max_length.getD default_spec_values.max_length
      shorten_str := spec.shorten_str.getD default_spec_values.shorten_str
      replace_map := spec.replace_map.getD default_spec_values.replace_map }

/-- Source: `user_config` after `run()` applied `fix_config` — with no user
configuration file this is the fixed default configuration, the value the
main loop iterates over. -/
def user_config : List PropSpec := fix_config default_config

/-- Source: `generate_prop_index` — "Map the properties in the user_config
to indices" (a dict comprehension; a duplicate property name would keep the
last index, matching `dictGet`). -/
def generate_prop_index (config : List PropSpec) : List (String × Nat) :=
  config.enum.map fun p => (p.2.property, p.1)

/-- Source: `reset_format_cache` — set the global cache to `[''] *
len(user_config)`.  No caller exists anywhere in the program. -/
def reset_format_cache (config : List PropSpec) : List String :=
  List.replicate config.length ""

/-! The Formatting Engine (`format_property`, source lines 75-90). -/

/-- Whitespace stripped by Python `int` around a string literal (the ASCII
subset; other Unicode space characters do not occur in this development). -/
def isIntStripWs (c : Char) : Bool :=
  c == ' ' || c == '\t' || c == '\n' || c == '\r' ||
  c.toNat == 11 || c.toNat == 12

/-- The integer literals accepted by Python `int(str)`: optional surrounding
whitespace, an optional sign, then decimal digits.  (Underscores between
digits, which CPython also accepts, are not modelled; no input here uses
them.)  Returns `none` where `int` raises ValueError. -/
def parseIntText (s : String) : Option Int :=
  let cs := ((s.data.dropWhile isIntStripWs).reverse.dropWhile isIntStripWs).reverse
  let signAndDigits : Bool × List Char :=
    match cs with
    | '-' :: r => (true, r)
    | '+' :: r => (false, r)
    | _ => (false, cs)
  let neg := signAndDigits.1
  let ds := signAndDigits.2
  if ds ≠ [] ∧ ds.all Char.isDigit then
    some (if neg then -(digitsToNat ds : Int) else (digitsToNat ds : Int))
  else none

/-- Truncation toward zero, the behaviour of Python `int(float)`. -/
def jnumTrunc (q : JNum) : Int := q.n.tdiv (q.d : Int)

/-- Python `int(x)` on a decoded JSON value.  A fractional string such as
`"37.0"` is a ValueError; a float is truncated toward zero; a bool is its
numeric value. -/
def pyInt : JVal → Except PyErr Int
  | .num q => .ok (jnumTrunc q)
  | .boolean b => .ok (if b then 1 else 0)
  | .str s =>
    match parseIntText s with
    | some n => .ok n
    | none => .error (.valueError ("invalid literal for int() with base 10: " ++ s))
  | .null => .error (.typeError "int() argument must be a string or a number, not NoneType")
  | .arr _ => .error (.typeError "int() argument must be a string or a number, not list")
  | .obj _ => .error (.typeError "int() argument must be a string or a number, not dict")

/-- First character of a `string.Template` identifier (the `(?a)` ASCII
pattern `[_a-zA-Z]`). -/
def isIdentStart (c : Char) : Bool := c.isAlpha || c == '_'

/-- Subsequent character of a `string.Template` identifier. -/
def isIdentChar (c : Char) : Bool := c.isAlphanum || c == '_'

/-- Worker for `templateSubstitute`: scan for `$` placeholders.  `$$` is a
literal dollar; `$p` and the braced form substitute the value; any other
identifier raises KeyError and a `$` not followed by a placeholder raises
ValueError, as in `string.Template.substitute(p=...)`.  The fuel always
suffices for the supplied input (every recursive call drops at least one
character), so the fuel-exhaustion branch is unreachable. -/
def substGo (p : List Char) : Nat → List Char → Except PyErr (List Char)
  | 0, _ => .error (.valueError "substitution fuel exhausted")
  | fuel + 1, cs =>
    match cs with
    | [] => .ok []
    | '$' :: rest =>
      match rest with
      | '$' :: rest2 => do
        let t ← substGo p fuel rest2
        .ok ('$' :: t)
      | c :: rest2 =>
        if c == lbrace then
          let idn := rest2.takeWhile isIdentChar
          let rest3 := rest2.dropWhile isIdentChar
          match idn, rest3 with
          | i0 :: irest, cb :: rest4 =>
            if isIdentStart i0 && cb == rbrace then
              if String.mk (i0 :: irest) == "p" then do
                let t ← substGo p fuel rest4
                .ok (p ++ t)
              else .error (.keyError (String.mk (i0 :: irest)))
            else .error (.valueError "Invalid placeholder in string")
          | _, _ => .error (.valueError "Invalid placeholder in string")
        else if isIdentStart c then
          let idn := (c :: rest2).takeWhile isIdentChar
          let rest3 := (c :: rest2).dropWhile isIdentChar
          if String.mk idn == "p" then do
            let t ← substGo p fuel rest3
            .ok (p ++ t)
          else .error (.keyError (String.mk idn))
        else .error (.valueError "Invalid placeholder in string")
      | [] => .error (.valueError "Invalid placeholder in string")
    | c :: rest => do
      let t ← substGo p fuel rest
      .ok (c :: t)

/-- Python `Template(tmpl).substitute(p=value)`. -/
def templateSubstitute (tmpl : String) (value : String) : Except PyErr String := do
  let t ← substGo value.data (tmpl.length + 1) tmpl.data
  .ok (String.mk t)

/-- Source: `format_property` — "Form prop_value according to its
specification."  Steps, exactly as in the source: int coercion when the
spec's type is `int`; `replace_map` lookup on the (possibly coerced) value
(only a string value can match the string-keyed dict); truncation with
`shorten_str` appended when the length exceeds `max_length`; finally
`Template(format).substitute(p=...)`.  `len()` of a number, bool or None
raises TypeError as in Python; container values (where Python `len` would
succeed) never reach this function in this development and are mapped to
the same error. -/
def format_property (prop_spec : PropSpec) (prop_value : JVal) :
    Except PyErr String := do
  let pv ←
    if prop_spec.type == "int" then do
      let n ← pyInt prop_value
      pure (JVal.str (toString n))
    else pure prop_value
  let pv :=
    match pv with
    | .str s =>
      match dictGet prop_spec.replace_map s with
      | some r => JVal.str r
      | none => pv
    | _ => pv
  match pv with
  | .str s =>
    let max_len := prop_spec.max_length
    let shortened :=
      if s.length > max_len then s.take max_len ++ prop_spec.shorten_str else s
    templateSubstitute prop_spec.format shortened
  | _ => .error (.typeError "object has no len()")

/-! The Session Loop (`run_observer`, source lines 182-212).  Socket reads
are modelled by a script of results; a chunk carries the text obtained by
`contents.decode('UTF-8', 'ignore')` (the byte-level decode itself, which
never raises, is below the granularity of this model). -/

/-- One result of `sock.recv(RECV_CHUNK)`. -/
inductive RecvResult where
  | reset
  | closed
  | chunk (text : String)
deriving Repr, DecidableEq

/-- Python list-index assignment `cache[idx] = v`: IndexError when `idx` is
out of range. -/
def listSet (cache : List String) (idx : Nat) (v : String) :
    Except PyErr (List String) :=
  if idx < cache.length then .ok (cache.set idx v)
  else .error (.indexError "list assignment index out of range")

/-- Python dict indexing `prop_index[prop]`: KeyError when absent. -/
def indexGet (prop_index : List (String × Nat)) (prop : String) :
    Except PyErr Nat :=
  match dictGet prop_index prop with
  | some idx => .ok idx
  | none => .error (.keyError prop)

/-- The `for spec in user_config:` body of `run_observer`, threading the
cache through the spec list.  Per spec: `value = get_newest_data(json_list,
prop)`; on `value == ''` the cache slot is assigned `''`; otherwise, when a
value is present, `formatted_cache[prop_index[prop]] =
format_property(prop, value)` — the source passes the property NAME (a
string) where `format_property` expects the spec dict, so the first
statement of `format_property`, `prop_spec['type']`, subscripts a string
with a string key and raises TypeError (the right-hand side is evaluated
before the index assignment). -/
def run_observer_update_loop (config : List PropSpec)
    (prop_index : List (String × Nat)) (cache : List String)
    (json_list : List JVal) : Except PyErr (List String) :=
  match config with
  | [] => .ok cache
  | spec :: rest => do
    let prop := spec.property
    let value ← get_newest_data json_list prop
    let cache ←
      match value with
      | some v =>
        if pyEqV v (.str "") then do
          let idx ← indexGet prop_index prop
          listSet cache idx ""
        else do
          let formatted ←
            (Except.error (PyErr.typeError "string indices must be integers") :
              Except PyErr String)
          let idx ← indexGet prop_index prop
          listSet cache idx formatted
      | none => pure cache
    run_observer_update_loop rest prop_index cache json_list

/-- Processing of one received chunk in `run_observer`: decode the lines
with `get_jsons`, run the update loop, then `output(format_cached())` —
`format_cached` is commented out at module level in this revision, so the
final call raises NameError before anything is printed.  Returns the new
cache and the printed line (never reached in this revision). -/
def run_observer_batch (config : List PropSpec)
    (prop_index : List (String × Nat)) (cache : List String) (text : String) :
    Except PyErr (List String × String) := do
  let json_list ← get_jsons text
  let cache ← run_observer_update_loop config prop_index cache json_list
  let line ← (Except.error (PyErr.nameError "format_cached") : Except PyErr String)
  .ok (cache, line)

/-- The `while True:` read loop of `run_observer`, over a script of recv
results.  A ConnectionResetError or a zero-length read runs `end_session`
(which prints `EMPTYSTR`) and returns; an exhausted script models the loop
blocking in `recv` with nothing further observed.  The result collects the
lines written to standard output during the session. -/
def run_observer_loop (config : List PropSpec)
    (prop_index : List (String × Nat)) (cache : List String) :
    List RecvResult → Except PyErr (List String)
  | [] => .ok []
  | .reset :: _ => .ok [EMPTYSTR]
  | .closed :: _ => .ok [EMPTYSTR]
  | .chunk text :: rest => do
    let step ← run_observer_batch config prop_index cache text
    let outs ← run_observer_loop config prop_index step.1 rest
    .ok (step.2 :: outs)

/-- Source: `run_observer` — "Main program loop."  Its first statement,
`formatted_cache = []` ("Ensure empty cache when starting."), binds a fresh
LOCAL empty list: the module-level cache that `reset_format_cache` would
build is shadowed, and `reset_format_cache` is never called anywhere in the
program, so every index into the cache is out of range. -/
def run_observer (config : List PropSpec) (prop_index : List (String × Nat))
    (recvs : List RecvResult) : Except PyErr (List String) :=
  run_observer_loop config prop_index [] recvs

/-! The Connection Manager (`wait_connect`, source lines 144-165), modelled
over the trace of outcomes of the successive `sock.connect(ADDR)` calls.
The blocking inotify wait between failed attempts and the 100ms sleep are
below the granularity of the model. -/

/-- Outcome of one `sock.connect(ADDR)` attempt. -/
inductive ConnectOutcome where
  | connected
  | connectionRefused
  | fileNotFound
deriving Repr, DecidableEq

/-- Source: `wait_connect` — "Wait for the mpv server to start and return
the socket."  The `try` catches only `ConnectionError` (whose subclass
ConnectionRefusedError is raised when the socket file exists but nobody
listens) and then waits on inotify before retrying.  FileNotFoundError —
raised by `connect` when the socket path does not exist at all — is NOT a
subclass of ConnectionError, so it propagates out.  Returns `true` when a
connection was returned and `false` when the trace ends with the function
still blocked waiting. -/
def wait_connect : List ConnectOutcome → Except PyErr Bool
  | [] => .ok false
  | .connected :: _ => .ok true
  | .connectionRefused :: rest => wait_connect rest
  | .fileNotFound :: _ => .error .fileNotFoundError

/-! Process startup (`run`, source lines 251-275), modelled as the trace of
externally visible effects up to the first connection attempt. -/

/-- An externally visible effect of `run()` before and around the main
loop. -/
inductive StartupEffect where
  | loadConfigFile
  | installSignalHandler (sig : String)
  | writeLine (line : String)
  | inotifyInit
  | addWatch (dir : String)
  | acquireConnection
deriving Repr, DecidableEq

/-- `pathlib.Path(p).parent` for the simple absolute file paths used here:
drop the final path component. -/
def pathParent (p : String) : String :=
  String.intercalate "/" (p.splitOn "/").dropLast

/-- `pathlib.Path(p).stem` for a basename with no leading dot: the final
component minus its last extension. -/
def pathStem (p : String) : String :=
  let base := ((p.splitOn "/").getLastD "")
  let parts := base.splitOn "."
  if parts.length ≤ 1 then base else String.intercalate "." parts.dropLast

/-- Source: `run` — "Set up the program loop and run it."  In source order:
load and fix the configuration (lines 254-258, with `generate_prop_index`
on line 260), install the SIGINT handler (line 262), `output_empty()`
(line 263), create the inotify instance and watch the socket's parent
directory for CREATE events (lines 265-269), then enter the `while True`
loop whose first action is `wait_connect` (lines 270-273). -/
def run_startup_trace : List StartupEffect :=
  [ .loadConfigFile
  , .installSignalHandler "SIGINT"
  , .writeLine EMPTYSTR
  , .inotifyInit
  , .addWatch (pathParent ADDR)
  , .acquireConnection ]

/-- Whether a startup effect writes a line to standard output. -/
def isWriteLineEffect : StartupEffect → Bool
  | .writeLine _ => true
  | _ => false

/-! Concrete data used by the claims. -/

/-- The property index of the default configuration, as `run()` builds it. -/
def user_prop_index : List (String × Nat) := generate_prop_index user_config

/-- The `loop-file` spec of the fixed default configuration. -/
def loopFileSpec : PropSpec :=
  { property := "loop-file"
    type := "string"
    format := "$p "
    max_length := 5
    shorten_str := "..."
    replace_map := [("no", ""), ("inf", "(r)")] }

/-- The `volume` spec of the fixed default configuration. -/
def volumeSpec : PropSpec :=
  { property := "volume"
    type := "int"
    format := "($p%) "
    max_length := 5
    shorten_str := "..."
    replace_map := [] }

/-- The single-property configuration of claim C1: `media-title` with the
bare-placeholder template, fixed against the defaults. -/
def mediaTitleConfig : List PropSpec :=
  fix_config [ { property := "media-title", format := some "$p" } ]

/-- The `media-title` spec that `mediaTitleConfig` contains. -/
def mediaTitleSpec : PropSpec :=
  { property := "media-title"
    type := "string"
    format := "$p"
    max_length := 50
    shorten_str := "..."
    replace_map := [] }

/-- The wire line of claim C1 (decoded chunk text). -/
def songALine : String :=
  "\x7b\"event\":\"property-change\",\"id\":1,\"name\":\"media-title\",\"data\":\"Song A\"\x7d\n"

/-- A chunk whose first line is not JSON and whose second line is the valid
matching event line of claim C1 (claim C2). -/
def c2Batch : String := "this is not json\n" ++ songALine

/-- A valid matching `loop-file` event whose data is null (claim C3). -/
def loopNullLine : String :=
  "\x7b\"event\":\"property-change\",\"id\":1,\"name\":\"loop-file\",\"data\":null\x7d\n"

/-- A valid matching `volume` event with non-numeric raw text (claim C5). -/
def volAbcLine : String :=
  "\x7b\"event\":\"property-change\",\"id\":1,\"name\":\"volume\",\"data\":\"abc\"\x7d\n"

/-- A decoded matching event record whose `data` field holds the given
value (claims C7, C8). -/
def eventWithData (d : JVal) : JVal :=
  .obj [ ("event", .str "property-change"), ("id", .num (jnumInt 1))
       , ("name", .str "media-title"), ("data", d) ]

/-- A decoded matching event record with no `data` field at all (claim C7). -/
def eventNoData : JVal :=
  .obj [ ("event", .str "property-change"), ("id", .num (jnumInt 1))
       , ("name", .str "media-title") ]

/-- Two earlier matching records of the same batch, carrying values that
must never be reflected (claim C8 witness). -/
def c8Earlier : List JVal :=
  [eventWithData (.str "Old 1"), eventWithData (.str "Old 2")]

/-- The fields of the last matching record of the batch (claim C8
witness). -/
def c8LastFields : List (String × JVal) :=
  [ ("event", .str "property-change"), ("id", .num (jnumInt 1))
  , ("name", .str "media-title"), ("data", .str "New") ]

/-! Helper lemmas about the event-selection step. -/

/-- The matching records of a batch of decoded objects, as a total
function. -/
def matchedOf (json_list : List JVal) (event : String) :
    List (List (String × JVal)) :=
  json_list.filterMap fun x =>
    match x with
    | .obj fields => if isMatch event fields then some fields else none
    | _ => none

lemma matchingEvents_eq_ok (event : String) (l : List JVal)
    (h : ∀ x ∈ l, x.isObj = true) :
    matchingEvents l event = .ok (matchedOf l event) := by
  induction l with
  | nil => rfl
  | cons x l ih =>
    have hx : x.isObj = true := h x (List.mem_cons_self x l)
    have ihl := ih (fun y hy => h y (List.mem_cons_of_mem _ hy))
    cases x with
    | obj fields =>
      simp [matchingEvents, matchedOf, List.filterMap_cons, ihl]
      by_cases hm : isMatch event fields <;>
        simp [hm, matchedOf, Bind.bind, Except.bind]
    | null => simp [JVal.isObj] at hx
    | boolean b => simp [JVal.isObj] at hx
    | num q => simp [JVal.isObj] at hx
    | str s => simp [JVal.isObj] at hx
    | arr elems => simp [JVal.isObj] at hx

lemma matchedOf_append (l1 l2 : List JVal) (event : String) :
    matchedOf (l1 ++ l2) event = matchedOf l1 event ++ matchedOf l2 event := by
  simp [matchedOf, List.filterMap_append]

lemma getLast?_append_singleton {α : Type} (xs : List α) (a : α) :
    (xs ++ [a]).getLast? = some a := by
  induction xs with
  | nil => rfl
  | cons x xs ih => rw [List.cons_append, List.getLast?_cons, ih]; rfl

/-! The claims. -/

/-- C1: with the single-property `media-title` configuration and the
one-event chunk carrying data "Song A", `run_observer` does NOT emit the
line "Song A": it raises TypeError, because it passes the property name
string to `format_property` in place of the spec dict.  The selection and
formatting steps themselves would produce "Song A" (conjuncts two and
three), so the claimed behaviour is the evident intent and the call is a
slip. -/
theorem C1_single_property_event_crashes :
    run_observer mediaTitleConfig (generate_prop_index mediaTitleConfig)
        [RecvResult.chunk songALine]
      = Except.error (PyErr.typeError "string indices must be integers") ∧
    mediaTitleConfig = [mediaTitleSpec] ∧
    format_property mediaTitleSpec (JVal.str "Song A") = Except.ok "Song A" :=
  ⟨rfl, rfl, rfl⟩

/-- C2 counterexample: on a chunk whose first line is not JSON and whose
second line is a valid matching event, the decode step raises (the
exception escapes `run_observer` untouched), so the session does not
continue and the valid event is never applied — the claim as stated is
false at this input. -/
theorem C2_counterexample :
    run_observer user_config user_prop_index [RecvResult.chunk c2Batch]
      = Except.error (PyErr.jsonDecodeError "Expecting value") :=
  rfl

/-- C2 amended: `get_jsons` maps `json.loads` over the split lines with no
per-line error handling, so a malformed line aborts the whole batch with an
uncaught exception, even though the valid following line decodes fine on
its own (only undecodable BYTES are tolerated, by `decode('UTF-8',
'ignore')` before `get_jsons` runs). -/
theorem C2_malformed_line_aborts_batch :
    get_jsons c2Batch = Except.error (PyErr.jsonDecodeError "Expecting value") ∧
    json_loads "this is not json"
      = Except.error (PyErr.jsonDecodeError "Expecting value") ∧
    get_jsons songALine
      = Except.ok [JVal.obj
          [ ("event", JVal.str "property-change"), ("id", JVal.num ⟨1, 1⟩)
          , ("name", JVal.str "media-title"), ("data", JVal.str "Song A") ]] :=
  ⟨rfl, rfl, rfl⟩

/-- C3: the Property Cache invariant fails at the start of every
connection: `run_observer` begins with a fresh LOCAL `formatted_cache = []`
that has an entry for NO configured property (`reset_format_cache`, which
would build one empty entry per configured property, is never called), so
the first matching event — here a `loop-file` event with null data, whose
cache slot should be set to the empty string — hits an out-of-range index. -/
theorem C3_cache_has_no_entries_at_session_start :
    run_observer user_config user_prop_index [RecvResult.chunk loopNullLine]
      = Except.error (PyErr.indexError "list assignment index out of range") ∧
    reset_format_cache user_config = ["", "", "", ""] ∧
    (reset_format_cache user_config).length = user_config.length :=
  ⟨rfl, rfl, rfl⟩

/-- C4 counterexample: for the `loop-file` spec of the program's own
default configuration, whose replaceMap maps "no" to the empty string,
formatting the raw value "no" does NOT bypass template substitution: it
returns the template's literal text with an empty placeholder — the single
space " ", not an absent/empty contribution. -/
theorem C4_counterexample :
    format_property loopFileSpec (JVal.str "no") = Except.ok " " ∧
    user_config[0]? = some loopFileSpec ∧
    (" " : String) ≠ "" :=
  ⟨rfl, rfl, by decide⟩

/-- C4 amended: a replaceMap entry mapping to the empty string substitutes
the empty string before truncation (which is then vacuous), but template
substitution still runs: `format_property` returns the template applied to
the empty value, so the template's literal text IS emitted.  (The
empty-value bypass in `run_observer` applies only when the event's raw data
itself is empty or falsy, before `format_property` is ever called.) -/
theorem C4_replace_to_empty_still_templated (spec : PropSpec) (v : String)
    (hty : spec.type ≠ "int") (hmap : dictGet spec.replace_map v = some "") :
    format_property spec (JVal.str v) = templateSubstitute spec.format "" := by
  have hbeq : (spec.type == "int") = false := beq_eq_false_iff_ne.mpr hty
  simp [format_property, hbeq, hmap, Bind.bind, Except.bind, pure, Except.pure,
    String.length_empty]

/-- C4 witness: the amended statement instantiated at the `loop-file` spec
and the raw value "no". -/
theorem C4_witness :
    (loopFileSpec.type ≠ "int" ∧ dictGet loopFileSpec.replace_map "no" = some "") ∧
    format_property loopFileSpec (JVal.str "no")
      = templateSubstitute loopFileSpec.format "" :=
  ⟨⟨by decide, by decide⟩,
   C4_replace_to_empty_still_templated loopFileSpec "no" (by decide) (by decide)⟩

/-- C5 counterexample: a batch carrying non-numeric raw text for the
Integer-kind `volume` property is NOT contained to that property's update:
the exception escapes `run_observer` (no handler exists anywhere above it),
so the session — and with it the process — is aborted rather than the cache
keeping its previous value while the rest of the batch applies. -/
theorem C5_counterexample :
    run_observer user_config user_prop_index [RecvResult.chunk volAbcLine]
      = Except.error (PyErr.typeError "string indices must be integers") :=
  rfl

/-- C5 amended: formatting failures are process-fatal, not
fatal-to-this-update: even starting from a well-formed four-entry cache,
the batch step aborts with an uncaught exception on the `volume` update (in
this revision any non-empty value update raises TypeError, because
`format_property` receives the property name instead of the spec dict; the
underlying int-coercion failure on "abc" is a ValueError that would
likewise be uncaught). -/
theorem C5_format_failure_is_fatal :
    run_observer_batch user_config user_prop_index ["", "", "", ""] volAbcLine
      = Except.error (PyErr.typeError "string indices must be integers") ∧
    format_property volumeSpec (JVal.str "abc")
      = Except.error (PyErr.valueError "invalid literal for int() with base 10: abc") ∧
    user_config[1]? = some volumeSpec :=
  ⟨rfl, rfl, rfl⟩

/-- C6 counterexample: for the Integer-kind `volume` spec, the raw value
TEXT "37.0" is not coerced to 37: Python `int` rejects a fractional string
literal, so formatting fails with ValueError instead of producing
"(37%) ". -/
theorem C6_counterexample :
    format_property volumeSpec (JVal.str "37.0")
      = Except.error (PyErr.valueError "invalid literal for int() with base 10: 37.0") :=
  rfl

/-- C6 amended: for an Integer-kind spec the coercion drops fractional
parts only when the raw value arrives as a native JSON number — the actual
wire form, since Integer-kind properties are subscribed with
`observe_property` — truncating toward zero and rendering the canonical
decimal string: the decoded number 37.0 (and 37.5) formats as "(37%) ",
-37.5 as "(-37%) "; integer TEXT such as "37" also works, but fractional
text is rejected. -/
theorem C6_integer_coercion_on_numbers :
    json_loads "37.0" = Except.ok (JVal.num ⟨370, 10⟩) ∧
    format_property volumeSpec (JVal.num ⟨370, 10⟩) = Except.ok "(37%) " ∧
    format_property volumeSpec (JVal.num ⟨375, 10⟩) = Except.ok "(37%) " ∧
    format_property volumeSpec (JVal.num ⟨-375, 10⟩) = Except.ok "(-37%) " ∧
    format_property volumeSpec (JVal.str "37") = Except.ok "(37%) " :=
  ⟨rfl, rfl, rfl, rfl, rfl⟩

/-- C7 counterexample: a matching event whose data is null and one whose
data is the empty string produce the SAME result from the decode/selection
step — both become the empty string (`data or ''`) — so null and empty
string are not distinguished, contrary to the claim. -/
theorem C7_counterexample :
    get_newest_data [eventWithData JVal.null] "media-title"
      = get_newest_data [eventWithData (JVal.str "")] "media-title" ∧
    get_newest_data [eventWithData JVal.null] "media-title"
      = Except.ok (some (JVal.str "")) :=
  ⟨rfl, rfl⟩

/-- C7 amended: the decode/selection step distinguishes "no matching event"
(None) from a matched event, but it maps a null, absent or otherwise falsy
`data` value AND an empty-string `data` value all to the same empty-string
result (the in-code comment reserves the empty string to mark "newest data
is null"). -/
theorem C7_null_and_empty_collapse :
    get_newest_data ([] : List JVal) "media-title" = Except.ok none ∧
    get_newest_data [eventWithData JVal.null] "media-title"
      = Except.ok (some (JVal.str "")) ∧
    get_newest_data [eventWithData (JVal.str "")] "media-title"
      = Except.ok (some (JVal.str "")) ∧
    get_newest_data [eventNoData] "media-title"
      = Except.ok (some (JVal.str "")) ∧
    get_newest_data [eventWithData (JVal.num (jnumInt 0))] "media-title"
      = Except.ok (some (JVal.str "")) :=
  ⟨rfl, rfl, rfl, rfl, rfl⟩

/-- C8: last-write-wins per key, per batch: appending a matching record to
any batch of decoded objects makes the selection result exactly that
record's data (through `data or ''`), identical to what the record alone
would produce — no earlier value of the batch is ever reflected. -/
theorem C8_last_write_wins (l : List JVal) (j : List (String × JVal))
    (event : String) (hl : ∀ x ∈ l, x.isObj = true)
    (hj : isMatch event j = true) :
    get_newest_data (l ++ [JVal.obj j]) event
      = Except.ok (some (pyOrEmpty (dictGet j "data"))) ∧
    get_newest_data (l ++ [JVal.obj j]) event
      = get_newest_data [JVal.obj j] event := by
  have hall : ∀ x ∈ l ++ [JVal.obj j], x.isObj = true := by
    intro x hx
    rcases List.mem_append.mp hx with h1 | h2
    · exact hl x h1
    · rw [List.mem_singleton] at h2; subst h2; rfl
  have hmev := matchingEvents_eq_ok event (l ++ [JVal.obj j]) hall
  have hm2 : matchedOf (l ++ [JVal.obj j]) event = matchedOf l event ++ [j] := by
    rw [matchedOf_append]
    simp [matchedOf, hj]
  have hsingle : matchingEvents [JVal.obj j] event = .ok [j] := by
    simp [matchingEvents, hj, Bind.bind, Except.bind]
  constructor
  · simp [get_newest_data, hmev, hm2, getLast?_append_singleton,
      Bind.bind, Except.bind]
  · simp [get_newest_data, hmev, hm2, hsingle, getLast?_append_singleton,
      Bind.bind, Except.bind]

/-- C8 witness: a batch with two earlier matching `media-title` records
("Old 1", "Old 2") followed by a matching record carrying "New": the
selection result is "New", exactly as for the last record alone. -/
theorem C8_witness :
    ((∀ x ∈ c8Earlier, x.isObj = true) ∧ isMatch "media-title" c8LastFields = true) ∧
    (get_newest_data (c8Earlier ++ [JVal.obj c8LastFields]) "media-title"
       = Except.ok (some (pyOrEmpty (dictGet c8LastFields "data"))) ∧
     get_newest_data (c8Earlier ++ [JVal.obj c8LastFields]) "media-title"
       = get_newest_data [JVal.obj c8LastFields] "media-title") :=
  ⟨⟨by decide, by decide⟩,
   C8_last_write_wins c8Earlier c8LastFields "media-title" (by decide) (by decide)⟩

/-- C9: acquisition is NOT total: when a connect attempt fails because the
socket path does not exist at all (FileNotFoundError, the "no such
endpoint" case), the error is not a ConnectionError, escapes the `try` of
`wait_connect`, and the function fails instead of entering the inotify wait
state — while a refused connection (second conjunct) is caught and retried
as the docstring intends, which makes the uncaught case a slip. -/
theorem C9_enoent_escapes_wait_connect :
    wait_connect [ConnectOutcome.fileNotFound]
      = Except.error PyErr.fileNotFoundError ∧
    wait_connect [ConnectOutcome.connectionRefused, ConnectOutcome.connected]
      = Except.ok true :=
  ⟨rfl, rfl⟩

/-- C10: at startup, after the configuration is loaded and the SIGINT
handler is installed but before any connection attempt, `run()` writes the
empty-output line exactly once: the startup trace contains exactly one
write, it is `EMPTYSTR`, and it sits strictly between the signal-handler
installation and the first acquisition. -/
theorem C10_empty_output_once_at_startup :
    run_startup_trace.filter isWriteLineEffect
      = [StartupEffect.writeLine EMPTYSTR] ∧
    run_startup_trace.indexOf (StartupEffect.installSignalHandler "SIGINT")
      < run_startup_trace.indexOf (StartupEffect.writeLine EMPTYSTR) ∧
    run_startup_trace.indexOf (StartupEffect.writeLine EMPTYSTR)
      < run_startup_trace.indexOf StartupEffect.acquireConnection := by
  decide

end Mpvinfod
